import Mathlib

set_option maxRecDepth 40000

/-!
Shallow embedding of the library-catalog web application (Express + SQLite):
the zod validation schemas (`types.ts`), the session/auth helpers and the
resource handlers of the authenticated server (`db.ts`), and the relational
store described by `schema.sql`.  Pure request handlers become Lean functions
`Store → request data → Resp × Store`; the SQLite tables become lists of rows
carried in a `Store` record together with the AUTOINCREMENT counters.
-/

namespace Catalog

/-! ## JavaScript string-to-number semantics

`parsePositiveInt` in `db.ts` is `Number(value)` followed by
`Number.isInteger(n) && n > 0`.  We model `Number(string)` (ECMAScript
StringToNumber) in two faithful stages.  First the grammar with exact
rational arithmetic: whitespace trimming, the empty string mapping to 0,
signed decimal literals with fraction and exponent, `Infinity`, and the
`0x`/`0o`/`0b` integer prefixes.  Second, the exact mathematical value is
rounded to the nearest IEEE-754 binary64 value (round to nearest, ties to
even, overflow to ±Infinity, gradual underflow to zero), since that
rounding is observable in the handlers: `Number("1.0000000000000001")` is
exactly 1 and passes `Number.isInteger`, while `Number("1e309")` is
`Infinity` and fails it.  Every binary64 value is a rational, so the
rounded result is carried exactly as a `Rat`. -/

/-- ECMAScript WhiteSpace and LineTerminator code points accepted by
StringToNumber's trimming step. -/
def jsWhitespace (c : Char) : Bool :=
  c.toNat == 0x20 || c.toNat == 0x09 || c.toNat == 0x0A || c.toNat == 0x0B ||
  c.toNat == 0x0C || c.toNat == 0x0D || c.toNat == 0xA0 || c.toNat == 0x1680 ||
  (0x2000 ≤ c.toNat && c.toNat ≤ 0x200A) || c.toNat == 0x2028 ||
  c.toNat == 0x2029 || c.toNat == 0x202F || c.toNat == 0x205F ||
  c.toNat == 0x3000 || c.toNat == 0xFEFF

/-- Trim leading and trailing JS whitespace from a character list. -/
def jsTrim (cs : List Char) : List Char :=
  ((cs.dropWhile jsWhitespace).reverse.dropWhile jsWhitespace).reverse

/-- Result of ECMAScript `Number(string)`: NaN, a signed infinity, or a
finite value represented exactly as a rational. -/
inductive JsNum where
  | nan : JsNum
  | inf (neg : Bool) : JsNum
  | fin (q : Rat) : JsNum
deriving DecidableEq, Repr

def isDecDigit (c : Char) : Bool := '0' ≤ c && c ≤ '9'

def isHexDigit (c : Char) : Bool :=
  isDecDigit c || ('a' ≤ c && c ≤ 'f') || ('A' ≤ c && c ≤ 'F')

def hexDigitVal (c : Char) : Nat :=
  if isDecDigit c then c.toNat - '0'.toNat
  else if 'a' ≤ c && c ≤ 'f' then c.toNat - 'a'.toNat + 10
  else c.toNat - 'A'.toNat + 10

/-- Value of a digit list in the given base (most significant first). -/
def digitsVal (base : Nat) (cs : List Char) : Nat :=
  cs.foldl (fun acc c => acc * base + hexDigitVal c) 0

/-- Parse `DecimalDigits` as a prefix: returns the digits read and the rest. -/
def takeDigits (cs : List Char) : List Char × List Char :=
  (cs.takeWhile isDecDigit, cs.dropWhile isDecDigit)

/-- Parse the optional `ExponentPart` (`e`/`E`, optional sign, digits) which
must consume the whole remaining input; `none` means a syntax error. -/
def parseExponent (cs : List Char) : Option Int :=
  match cs with
  | [] => some 0
  | e :: rest =>
    if e == 'e' || e == 'E' then
      let (sign, rest') : Int × List Char :=
        match rest with
        | '+' :: r => (1, r)
        | '-' :: r => (-1, r)
        | r => (1, r)
      let (ds, tail) := takeDigits rest'
      if ds.isEmpty || !tail.isEmpty then none
      else some (sign * (digitsVal 10 ds : Int))
    else none

/-- Exact negation of a rational via its reduced representation. -/
def ratNeg (q : Rat) : Rat := mkRat (-q.num) q.den

/-- Exact value of `mantissa × 10 ^ scale` as a rational. -/
def pow10Scaled (mantissa : Int) (scale : Int) : Rat :=
  if 0 ≤ scale then ((mantissa * (10 : Int) ^ scale.toNat : Int) : Rat)
  else mkRat mantissa ((10 : Nat) ^ (-scale).toNat)

/-- Parse `StrUnsignedDecimalLiteral`: `Infinity`, or digits with optional
fraction and exponent.  The input must be consumed entirely. -/
def parseUnsignedDec (cs : List Char) : JsNum :=
  if cs == "Infinity".data then .inf false
  else
    let (intPart, rest) := takeDigits cs
    let (fracPart, rest') :=
      match rest with
      | '.' :: r => takeDigits r
      | r => ([], r)
    if intPart.isEmpty && fracPart.isEmpty then .nan
    else if intPart.isEmpty && rest.isEmpty then .nan
    else
      match parseExponent rest' with
      | none => .nan
      | some e =>
        let mant : Int := (digitsVal 10 (intPart ++ fracPart) : Nat)
        .fin (pow10Scaled mant (e - (fracPart.length : Int)))

/-- Exact mathematical value of the ECMAScript StringNumericLiteral
grammar, before IEEE-754 rounding. -/
def jsNumberExact (s : String) : JsNum :=
  let cs := jsTrim s.data
  match cs with
  | [] => .fin 0
  | '0' :: x :: rest =>
    if (x == 'x' || x == 'X') && !rest.isEmpty && rest.all isHexDigit then
      .fin ((digitsVal 16 rest : Nat) : Rat)
    else if (x == 'o' || x == 'O') && !rest.isEmpty &&
        rest.all (fun c => '0' ≤ c && c ≤ '7') then
      .fin ((digitsVal 8 rest : Nat) : Rat)
    else if (x == 'b' || x == 'B') && !rest.isEmpty &&
        rest.all (fun c => c == '0' || c == '1') then
      .fin ((digitsVal 2 rest : Nat) : Rat)
    else parseUnsignedDec cs
  | '+' :: rest => parseUnsignedDec rest
  | '-' :: rest =>
    match parseUnsignedDec rest with
    | .nan => .nan
    | .inf _ => .inf true
    | .fin q => .fin (ratNeg q)
  | _ => parseUnsignedDec cs

/-- 2 ^ k as an exact rational, for an integer exponent k. -/
def ratPow2 (k : Int) : Rat :=
  if 0 ≤ k then ((2 ^ k.toNat : Nat) : Rat) else mkRat 1 (2 ^ (-k).toNat)

/-- q · 2 ^ k as an exact rational, for a rational q and integer k. -/
def ratMulPow2 (q : Rat) (k : Int) : Rat :=
  if 0 ≤ k then mkRat (q.num * ((2 ^ k.toNat : Nat) : Int)) q.den
  else mkRat q.num (q.den * 2 ^ (-k).toNat)

/-- m · 2 ^ k as an exact rational, for integers m and k. -/
def intMulPow2 (m : Int) (k : Int) : Rat :=
  if 0 ≤ k then mkRat (m * ((2 ^ k.toNat : Nat) : Int)) 1
  else mkRat m (2 ^ (-k).toNat)

/-- Round a nonnegative rational to the nearest integer, ties to even
(for nonnegative numerator every integer division convention is the
floor, and the fractional part `rem/den` is compared with 1/2 by
cross-multiplication). -/
def roundHalfEven (q : Rat) : Int :=
  let fl := q.num / (q.den : Int)
  let rem := q.num % (q.den : Int)
  if 2 * rem < (q.den : Int) then fl
  else if (q.den : Int) < 2 * rem then fl + 1
  else if fl % 2 = 0 then fl else fl + 1

/-- Halving recursion for ⌊log₂⌋ with an explicit structural fuel;
`fuel ≥ ⌊log₂ n⌋` halvings suffice. -/
def log2Fuel : Nat → Nat → Nat
  | 0, _ => 0
  | fuel + 1, n => if 2 ≤ n then log2Fuel fuel (n / 2) + 1 else 0

/-- ⌊log₂ n⌋ for n ≥ 1 (and 0 at 0), with `n` itself as ample fuel. -/
def natLog2 (n : Nat) : Nat := log2Fuel n n

/-- Exact ⌊log₂ q⌋ for a positive rational: `natLog2` of numerator and
denominator bracket it within one, and one exact comparison settles it. -/
def floorLog2Pos (q : Rat) : Int :=
  let approx : Int := (natLog2 q.num.toNat : Int) - (natLog2 q.den : Int)
  if ratPow2 approx ≤ q then approx else approx - 1

/-- Round a positive rational to the nearest IEEE-754 binary64 value
(round to nearest, ties to even): 53 significant bits for normal values,
a fixed 2⁻¹⁰⁷⁴ grid in the subnormal range, +Infinity when the rounded
result reaches 2¹⁰²⁴. -/
def roundToDoublePos (q : Rat) : JsNum :=
  let e := floorLog2Pos q
  let k : Int := if e < -1022 then 1074 else 52 - e
  let m := roundHalfEven (ratMulPow2 q k)
  let v := intMulPow2 m (-k)
  if ratPow2 1024 ≤ v then .inf false else .fin v

/-- IEEE-754 binary64 rounding of the exact `Number(string)` value
(rounding commutes with negation, ties-to-even being symmetric). -/
def roundDouble : JsNum → JsNum
  | .nan => .nan
  | .inf neg => .inf neg
  | .fin q =>
    if q = 0 then .fin 0
    else if 0 < q then roundToDoublePos q
    else
      match roundToDoublePos (ratNeg q) with
      | .inf _ => .inf true
      | .fin v => .fin (ratNeg v)
      | .nan => .nan

/-- ECMAScript `Number(string)`: the exact value of the numeric literal,
rounded to the nearest binary64 value. -/
def jsNumber (s : String) : JsNum :=
  roundDouble (jsNumberExact s)

/-- `parsePositiveInt` from `db.ts`: `Number(value)`, then require
`Number.isInteger(n) && n > 0`. -/
def parsePositiveInt (value : String) : Option Nat :=
  match jsNumber value with
  | .fin q => if q.den == 1 && 0 < q.num then some q.num.toNat else none
  | _ => none

/-! ## String utilities shared by the zod schemas and the SQL layer -/

/-- JavaScript `String.prototype.length`: UTF-16 code units. -/
def utf16Len (s : String) : Nat :=
  s.data.foldl (fun n c => n + (if c.toNat < 0x10000 then 1 else 2)) 0

/-- The test `/^\d{4}$/.test s` used by `PublishYearSchema` and the
`minYear` query filter: exactly four ASCII digits. -/
def fourDigits (s : String) : Bool :=
  s.data.length == 4 && s.data.all isDecDigit

/-- SQLite BINARY-collation comparison `a <= b` on TEXT values (byte-wise
memcmp on UTF-8, which coincides with code-point lexicographic order). -/
def sqliteLe : List Char → List Char → Bool
  | [], _ => true
  | _ :: _, [] => false
  | a :: as, b :: bs =>
    if a < b then true else if b < a then false else sqliteLe as bs

/-- The SQL condition `pub_year >= minYear`: `minYear <= pub_year`. -/
def strGe (pubYear minYear : String) : Bool :=
  sqliteLe minYear.data pubYear.data

/-! ## JSON values and the zod schemas of `types.ts`

A request body arriving through `express.json()` has already been
through `JSON.parse`, so a number field holds an IEEE-754 binary64 value;
every binary64 value is a rational, and `JsonVal.num` carries that
post-parse value exactly (rationals that are no binary64 value denote no
real request body).  `safeParse` of a zod object schema becomes an
`Except` returning either the typed data or the `flatten()`-style list of
per-field issues. -/

inductive JsonVal where
  | null : JsonVal
  | bool (b : Bool) : JsonVal
  | num (q : Rat) : JsonVal
  | str (s : String) : JsonVal
  | arr (xs : List JsonVal) : JsonVal
  | obj (fields : List (String × JsonVal)) : JsonVal

/-- Property lookup on a JSON object body. -/
def getField (fields : List (String × JsonVal)) (name : String) : Option JsonVal :=
  (fields.find? (fun f => f.1 == name)).map (·.2)

/-- zod `z.string().min(minL).max(maxL)`: JS string length is UTF-16 code
units. -/
def zodString (minL maxL : Nat) : Option JsonVal → Except String String
  | none => .error "Required"
  | some (.str s) =>
    if utf16Len s < minL then .error "String must contain more characters"
    else if maxL < utf16Len s then .error "String must contain fewer characters"
    else .ok s
  | some _ => .error "Expected string"

/-- zod `z.number().int().positive()` (`authorID`). -/
def zodPosInt : Option JsonVal → Except String Nat
  | none => .error "Required"
  | some (.num q) =>
    if q.den != 1 then .error "Expected integer, received float"
    else if q.num ≤ 0 then .error "Number must be greater than 0"
    else .ok q.num.toNat
  | some _ => .error "Expected number"

/-- `PublishYearSchema = z.string().regex(/^\d{4}$/)`. -/
def zodPublishYear : Option JsonVal → Except String String
  | none => .error "Required"
  | some (.str s) => if fourDigits s then .ok s else .error "Invalid"
  | some _ => .error "Expected string"

/-- `UsernameSchema = z.string().min(1).max(50).regex(/^[a-zA-Z0-9_]+$/)`.
zod runs every check and reports all failures; success needs all three. -/
def zodUsername : Option JsonVal → Except String String
  | none => .error "Required"
  | some (.str s) =>
    if utf16Len s < 1 then .error "String must contain more characters"
    else if 50 < utf16Len s then .error "String must contain fewer characters"
    else if !s.data.all (fun c => isDecDigit c || ('a' ≤ c && c ≤ 'z') ||
        ('A' ≤ c && c ≤ 'Z') || c == '_') then
      .error "username must be letters/numbers/underscore only"
    else .ok s
  | some _ => .error "Expected string"

/-- Collect a field's issue (if any) under its field name, in the shape of
`error.flatten().fieldErrors`. -/
def issueOf {α : Type} (name : String) : Except String α → List (String × String)
  | .error e => [(name, e)]
  | .ok _ => []

structure AuthorCreate where
  name : String
  bio : String
deriving DecidableEq, Repr

/-- `AuthorCreateSchema.safeParse`: `name` 1–200, `bio` 1–2000. -/
def authorCreateParse (body : JsonVal) : Except (List (String × String)) AuthorCreate :=
  match body with
  | .obj fields =>
    let n := zodString 1 200 (getField fields "name")
    let b := zodString 1 2000 (getField fields "bio")
    match n, b with
    | .ok n, .ok b => .ok ⟨n, b⟩
    | _, _ => .error (issueOf "name" n ++ issueOf "bio" b)
  | _ => .error [("", "Expected object")]

structure BookCreate where
  authorID : Nat
  title : String
  publishYear : String
  genre : String
deriving DecidableEq, Repr

/-- `BookCreateSchema.safeParse`: `authorID` positive integer, `title`
1–300, `publishYear` four digits, `genre` 1–100. -/
def bookCreateParse (body : JsonVal) : Except (List (String × String)) BookCreate :=
  match body with
  | .obj fields =>
    let a := zodPosInt (getField fields "authorID")
    let t := zodString 1 300 (getField fields "title")
    let p := zodPublishYear (getField fields "publishYear")
    let g := zodString 1 100 (getField fields "genre")
    match a, t, p, g with
    | .ok a, .ok t, .ok p, .ok g => .ok ⟨a, t, p, g⟩
    | _, _, _, _ =>
      .error (issueOf "authorID" a ++ issueOf "title" t ++
              issueOf "publishYear" p ++ issueOf "genre" g)
  | _ => .error [("", "Expected object")]

structure Credentials where
  username : String
  password : String
deriving DecidableEq, Repr

/-- `RegisterSchema.safeParse` and `LoginSchema.safeParse` (identical
shape): `username` per `UsernameSchema`, `password` 1–200. -/
def credentialsParse (body : JsonVal) : Except (List (String × String)) Credentials :=
  match body with
  | .obj fields =>
    let u := zodUsername (getField fields "username")
    let p := zodString 1 200 (getField fields "password")
    match u, p with
    | .ok u, .ok p => .ok ⟨u, p⟩
    | _, _ => .error (issueOf "username" u ++ issueOf "password" p)
  | _ => .error [("", "Expected object")]

/-! ## The relational store (`schema.sql`)

Four tables as lists of rows, plus the AUTOINCREMENT counters feeding
`result.lastID`.  Foreign keys are ON (`PRAGMA foreign_keys = ON`):
`books.author_id REFERENCES authors(id)` is protective, so a `DELETE FROM
authors` that would orphan a book raises, which the handler catches. -/

structure Author where
  id : Nat
  name : String
  bio : String
deriving DecidableEq, Repr

structure Book where
  id : Nat
  authorID : Nat
  createdByUserID : Nat
  title : String
  publishYear : String
  genre : String
deriving DecidableEq, Repr

structure UserRow where
  id : Nat
  username : String
  passwordHash : String
deriving DecidableEq, Repr

structure User where
  id : Nat
  username : String
deriving DecidableEq, Repr

structure Session where
  token : String
  userId : Nat
  createdAt : Nat
deriving DecidableEq, Repr

structure Store where
  authors : List Author
  books : List Book
  users : List UserRow
  sessions : List Session
  nextAuthorId : Nat
  nextBookId : Nat
  nextUserId : Nat
deriving DecidableEq, Repr

/-! ## HTTP responses -/

inductive RespBody where
  | empty : RespBody
  | errMsg (msg : String) : RespBody
  | errFields (errs : List (String × String)) : RespBody
  | author (a : Author) : RespBody
  | authorList (as : List Author) : RespBody
  | book (b : Book) : RespBody
  | bookList (bs : List Book) : RespBody
  | user (u : User) : RespBody
deriving DecidableEq, Repr

structure Resp where
  status : Nat
  body : RespBody
deriving DecidableEq, Repr

/-! ## Session resolution (`getUserFromToken`, `requireAuth`) -/

/-- `getUserFromToken`: the SQL join `sessions ⋈ users` on the cookie
token, yielding the caller's identity or none. -/
def getUserFromToken (st : Store) (token : Option String) : Option User :=
  match token with
  | none => none
  | some t =>
    match st.sessions.find? (fun s => s.token == t) with
    | none => none
    | some s =>
      match st.users.find? (fun u => u.id == s.userId) with
      | none => none
      | some u => some ⟨u.id, u.username⟩

/-! ## Resource handlers (`db.ts`, authenticated server)

Each handler takes the store and the request pieces it reads (cookie
token, `:id` path parameter as the raw string, JSON body, query
parameters) and returns the response together with the updated store. -/

/-- `POST /api/auth/register`.  `hash` abstracts `argon2.hash`. -/
def postRegister (st : Store) (hash : String → String) (body : JsonVal) :
    Resp × Store :=
  match credentialsParse body with
  | .error errs => (⟨400, .errFields errs⟩, st)
  | .ok data =>
    match st.users.find? (fun u => u.username == data.username) with
    | some _ => (⟨409, .errMsg "Username already taken"⟩, st)
    | none =>
      let uid := st.nextUserId
      let st' := { st with
        users := st.users ++ [⟨uid, data.username, hash data.password⟩],
        nextUserId := uid + 1 }
      (⟨201, .user ⟨uid, data.username⟩⟩, st')

/-- `POST /api/auth/login`.  `verify` abstracts `argon2.verify
(hash, password)`; `freshToken` and `now` abstract `crypto.randomBytes`
and `Date.now()`. -/
def postLogin (st : Store) (verify : String → String → Bool)
    (freshToken : String) (now : Nat) (body : JsonVal) : Resp × Store :=
  match credentialsParse body with
  | .error errs => (⟨400, .errFields errs⟩, st)
  | .ok data =>
    match st.users.find? (fun u => u.username == data.username) with
    | none => (⟨401, .errMsg "Invalid username or password"⟩, st)
    | some row =>
      if !verify row.passwordHash data.password then
        (⟨401, .errMsg "Invalid username or password"⟩, st)
      else
        let st' := { st with
          sessions := st.sessions ++ [⟨freshToken, row.id, now⟩] }
        (⟨200, .user ⟨row.id, row.username⟩⟩, st')

/-- `POST /api/authors`: auth, validate, insert, 201. -/
def postAuthors (st : Store) (token : Option String) (body : JsonVal) :
    Resp × Store :=
  match getUserFromToken st token with
  | none => (⟨401, .errMsg "Not logged in"⟩, st)
  | some _ =>
    match authorCreateParse body with
    | .error errs => (⟨400, .errFields errs⟩, st)
    | .ok data =>
      let aid := st.nextAuthorId
      let st' := { st with
        authors := st.authors ++ [⟨aid, data.name, data.bio⟩],
        nextAuthorId := aid + 1 }
      (⟨201, .author ⟨aid, data.name, data.bio⟩⟩, st')

/-- `GET /api/authors`. -/
def getAuthors (st : Store) : Resp × Store :=
  (⟨200, .authorList st.authors⟩, st)

/-- `GET /api/authors/:id`. -/
def getAuthorById (st : Store) (idStr : String) : Resp × Store :=
  match parsePositiveInt idStr with
  | none => (⟨400, .errMsg "id must be a positive integer"⟩, st)
  | some id =>
    match st.authors.find? (fun a => a.id == id) with
    | none => (⟨404, .errMsg "Author not found"⟩, st)
    | some a => (⟨200, .author a⟩, st)

/-- `DELETE /api/authors/:id`: auth, id validation, then `DELETE FROM
authors WHERE id = ?` inside try/catch.  With foreign keys on, the delete
raises exactly when a deleted row is still referenced by a book (caught →
409); otherwise zero affected rows → 404, else 204. -/
def deleteAuthorById (st : Store) (token : Option String) (idStr : String) :
    Resp × Store :=
  match getUserFromToken st token with
  | none => (⟨401, .errMsg "Not logged in"⟩, st)
  | some _ =>
    match parsePositiveInt idStr with
    | none => (⟨400, .errMsg "id must be a positive integer"⟩, st)
    | some id =>
      if st.authors.any (fun a => a.id == id) &&
          st.books.any (fun b => b.authorID == id) then
        (⟨409, .errMsg "Cannot delete author because they still have books"⟩, st)
      else
        let remaining := st.authors.filter (fun a => !(a.id == id))
        if remaining.length == st.authors.length then
          (⟨404, .errMsg "Author not found"⟩, st)
        else
          (⟨204, .empty⟩, { st with authors := remaining })

/-- `POST /api/books`: auth, validate, check the author exists (400 if
not), insert with `created_by_user_id` = caller, 201. -/
def postBooks (st : Store) (token : Option String) (body : JsonVal) :
    Resp × Store :=
  match getUserFromToken st token with
  | none => (⟨401, .errMsg "Not logged in"⟩, st)
  | some user =>
    match bookCreateParse body with
    | .error errs => (⟨400, .errFields errs⟩, st)
    | .ok data =>
      match st.authors.find? (fun a => a.id == data.authorID) with
      | none => (⟨400, .errMsg "authorID does not exist"⟩, st)
      | some _ =>
        let bid := st.nextBookId
        let newBook : Book :=
          ⟨bid, data.authorID, user.id, data.title, data.publishYear, data.genre⟩
        let st' := { st with
          books := st.books ++ [newBook], nextBookId := bid + 1 }
        (⟨201, .book newBook⟩, st')

/-- Row predicate of the `WHERE` clause built by `GET /api/books` from the
present query filters (already validated). -/
def bookMatches (authorID : Option Nat) (genre minYear : Option String)
    (b : Book) : Bool :=
  (match authorID with | some n => b.authorID == n | none => true) &&
  (match genre with | some g => b.genre == g | none => true) &&
  (match minYear with | some y => strGe b.publishYear y | none => true)

/-- `GET /api/books` with optional `authorID`, `genre`, `minYear` query
parameters (each present iff supplied as a single string). -/
def getBooks (st : Store) (authorID genre minYear : Option String) :
    Resp × Store :=
  match authorID with
  | some a =>
    match parsePositiveInt a with
    | none => (⟨400, .errMsg "authorID must be a positive integer"⟩, st)
    | some n => getBooksFiltered st (some n) genre minYear
  | none => getBooksFiltered st none genre minYear
where
  /-- Continuation after the `authorID` filter is validated: validate
  `minYear`, then run the assembled query. -/
  getBooksFiltered (st : Store) (authorIdNum : Option Nat)
      (genre minYear : Option String) : Resp × Store :=
    match minYear with
    | some y =>
      if !fourDigits y then (⟨400, .errMsg "minYear must be 4 digits"⟩, st)
      else (⟨200, .bookList (st.books.filter (bookMatches authorIdNum genre (some y)))⟩, st)
    | none =>
      (⟨200, .bookList (st.books.filter (bookMatches authorIdNum genre none))⟩, st)

/-- `GET /api/books/:id`. -/
def getBookById (st : Store) (idStr : String) : Resp × Store :=
  match parsePositiveInt idStr with
  | none => (⟨400, .errMsg "id must be a positive integer"⟩, st)
  | some id =>
    match st.books.find? (fun b => b.id == id) with
    | none => (⟨404, .errMsg "Book not found"⟩, st)
    | some b => (⟨200, .book b⟩, st)

/-- The `UPDATE books SET author_id, title, pub_year, genre WHERE id = ?`
statement: every matching row gets the new field values;
`created_by_user_id` is not in the SET list and is untouched. -/
def updateBookRow (id : Nat) (data : BookCreate) (b : Book) : Book :=
  if b.id == id then
    { b with authorID := data.authorID, title := data.title,
             publishYear := data.publishYear, genre := data.genre }
  else b

/-- `PUT /api/books/:id`: auth, id validation, body validation, author
existence (400), book existence (404), ownership (403), then update and
echo the edited record. -/
def putBookById (st : Store) (token : Option String) (idStr : String)
    (body : JsonVal) : Resp × Store :=
  match getUserFromToken st token with
  | none => (⟨401, .errMsg "Not logged in"⟩, st)
  | some user =>
    match parsePositiveInt idStr with
    | none => (⟨400, .errMsg "id must be a positive integer"⟩, st)
    | some id =>
      match bookCreateParse body with
      | .error errs => (⟨400, .errFields errs⟩, st)
      | .ok data =>
        match st.authors.find? (fun a => a.id == data.authorID) with
        | none => (⟨400, .errMsg "AuthorID does not exist"⟩, st)
        | some _ =>
          match st.books.find? (fun b => b.id == id) with
          | none => (⟨404, .errMsg "Book not found"⟩, st)
          | some savedBook =>
            if savedBook.createdByUserID != user.id then
              (⟨403, .errMsg "You can only edit books you created"⟩, st)
            else
              let st' := { st with books := st.books.map (updateBookRow id data) }
              (⟨200, .book ⟨id, data.authorID, user.id, data.title,
                            data.publishYear, data.genre⟩⟩, st')

/-- `DELETE /api/books/:id`: auth, id validation, book existence (404),
ownership (403), then `DELETE FROM books WHERE id = ?` and 204. -/
def deleteBookById (st : Store) (token : Option String) (idStr : String) :
    Resp × Store :=
  match getUserFromToken st token with
  | none => (⟨401, .errMsg "Not logged in"⟩, st)
  | some user =>
    match parsePositiveInt idStr with
    | none => (⟨400, .errMsg "id must be a positive integer"⟩, st)
    | some id =>
      match st.books.find? (fun b => b.id == id) with
      | none => (⟨404, .errMsg "Book not found"⟩, st)
      | some savedBook =>
        if savedBook.createdByUserID != user.id then
          (⟨403, .errMsg "You can only delete books you created"⟩, st)
        else
          (⟨204, .empty⟩,
           { st with books := st.books.filter (fun b => !(b.id == id)) })

/-! ## Test fixture: a small concrete store -/

def alice : UserRow := ⟨1, "alice", "hashA"⟩

def bob : UserRow := ⟨2, "bob", "hashB"⟩

def rowling : Author := ⟨1, "J.K. Rowling", "Science Fiction author."⟩

/-- A book created by `alice` (`createdByUserID = 1`). -/
def hpBook : Book := ⟨1, 1, 1, "Harry Potter", "1998", "Sci-Fi"⟩

/-- Store with one author, one book created by alice, and live sessions
for alice (`tokA`) and bob (`tokB`). -/
def st0 : Store :=
  ⟨[rowling], [hpBook], [alice, bob], [⟨"tokA", 1, 0⟩, ⟨"tokB", 2, 0⟩], 2, 2, 3⟩

/-- A syntactically valid book body targeting author 1 with the given
publish year. -/
def bookBody (y : String) : JsonVal :=
  .obj [("authorID", .num 1), ("title", .str "T"),
        ("publishYear", .str y), ("genre", .str "G")]

/-- A valid book body whose `authorID` (999999) matches no author row. -/
def bookBodyGhostAuthor : JsonVal :=
  .obj [("authorID", .num 999999), ("title", .str "T"),
        ("publishYear", .str "1999"), ("genre", .str "G")]

/-- Store with two books by the same author, publish years 1850 and
1950. -/
def stYears : Store :=
  ⟨[rowling],
   [⟨1, 1, 1, "Old", "1850", "G"⟩, ⟨2, 1, 1, "New", "1950", "G"⟩],
   [alice], [⟨"tokA", 1, 0⟩], 2, 3, 2⟩

/-! ## Helper lemmas -/

/-- Anything `parsePositiveInt` accepts is strictly positive. -/
theorem parsePositiveInt_pos {s : String} {n : Nat}
    (h : parsePositiveInt s = some n) : 0 < n := by
  unfold parsePositiveInt at h
  split at h
  · split at h
    · rename_i hc
      injection h with h
      simp only [Bool.and_eq_true, beq_iff_eq, decide_eq_true_eq] at hc
      omega
    · exact Option.noConfusion h
  · exact Option.noConfusion h

/-- `sqliteLe` is exactly the reflexive closure of code-point
lexicographic order on character lists. -/
theorem sqliteLe_iff (a b : List Char) :
    sqliteLe a b = true ↔ (a = b ∨ List.Lex (· < ·) a b) := by
  induction a generalizing b with
  | nil =>
    cases b with
    | nil => exact iff_of_true rfl (Or.inl rfl)
    | cons y ys => exact iff_of_true rfl (Or.inr List.Lex.nil)
  | cons x xs ih =>
    cases b with
    | nil =>
      simp only [sqliteLe, Bool.false_eq_true, false_iff]
      rintro (h | h)
      · exact List.noConfusion h
      · exact List.Lex.not_nil_right _ _ h
    | cons y ys =>
      by_cases hxy : x < y
      · simp only [sqliteLe, if_pos hxy, true_iff]
        exact Or.inr (List.Lex.rel hxy)
      · by_cases hyx : y < x
        · simp only [sqliteLe, if_neg hxy, if_pos hyx, Bool.false_eq_true,
            false_iff]
          rintro (h | h)
          · cases h; exact lt_irrefl _ hyx
          · cases h with
            | cons h => exact lt_irrefl _ hyx
            | rel h => exact hxy h
        · have hxyeq : x = y := le_antisymm (not_lt.mp hyx) (not_lt.mp hxy)
          subst hxyeq
          simp only [sqliteLe, if_neg hxy, if_neg hyx, ih]
          constructor
          · rintro (h | h)
            · exact Or.inl (by rw [h])
            · exact Or.inr (List.Lex.cons h)
          · rintro (h | h)
            · injection h with h1 h2
              exact Or.inl h2
            · cases h with
              | cons h => exact Or.inr h
              | rel h => exact absurd h hxy

/-- Field replacement applied by the SQL UPDATE to a matching row. -/
def replBook (data : BookCreate) (b : Book) : Book :=
  { b with authorID := data.authorID, title := data.title,
           publishYear := data.publishYear, genre := data.genre }

/-- `find?` by id after the SQL UPDATE maps the found row through the
field replacement. -/
theorem find?_map_update (l : List Book) (bid : Nat) (data : BookCreate) :
    (l.map (updateBookRow bid data)).find? (fun x => x.id == bid) =
      (l.find? (fun x => x.id == bid)).map (replBook data) := by
  induction l with
  | nil => rfl
  | cons h t ih =>
    by_cases hb : h.id == bid
    · simp [List.find?, updateBookRow, replBook, hb]
    · simp [List.find?, updateBookRow, hb, ih]

instance exceptDecEq {ε α : Type} [DecidableEq ε] [DecidableEq α] :
    DecidableEq (Except ε α)
  | .ok a, .ok b =>
    if h : a = b then .isTrue (by rw [h])
    else .isFalse (fun he => h (Except.ok.inj he))
  | .ok _, .error _ => .isFalse Except.noConfusion
  | .error _, .ok _ => .isFalse Except.noConfusion
  | .error a, .error b =>
    if h : a = b then .isTrue (by rw [h])
    else .isFalse (fun he => h (Except.error.inj he))

/-! ## Claims -/

/-- C8: every id accepted by `parsePositiveInt` is strictly positive, and
on any path-parameter string it rejects, each by-id endpoint (GET/PUT/
DELETE for books, GET/DELETE for authors) answers 400 "id must be a
positive integer" with the store untouched — the store-lookup branch is
never reached (the mutating endpoints are taken past their earlier auth
gate by `hauth`). -/
theorem claim8_path_id_validation (st : Store) (token : Option String)
    (u : User) (s : String) (body : JsonVal)
    (hauth : getUserFromToken st token = some u) :
    (∀ n, parsePositiveInt s = some n → 0 < n) ∧
    (parsePositiveInt s = none →
      getAuthorById st s = (⟨400, .errMsg "id must be a positive integer"⟩, st) ∧
      getBookById st s = (⟨400, .errMsg "id must be a positive integer"⟩, st) ∧
      deleteAuthorById st token s = (⟨400, .errMsg "id must be a positive integer"⟩, st) ∧
      putBookById st token s body = (⟨400, .errMsg "id must be a positive integer"⟩, st) ∧
      deleteBookById st token s = (⟨400, .errMsg "id must be a positive integer"⟩, st)) := by
  refine ⟨fun n hn => parsePositiveInt_pos hn, fun hbad => ⟨?_, ?_, ?_, ?_, ?_⟩⟩ <;>
    simp [getAuthorById, getBookById, deleteAuthorById, putBookById,
      deleteBookById, hauth, hbad]

/-- C8 witness: bob is logged in; "abc" and "1e309" (`Number` gives
`Infinity`) are rejected with 400 at the concrete fixture store, while the
rounding-sensitive strings behave as in JavaScript: "1.0000000000000001"
rounds to the id 1 and the lookup happens (200 with the row), and
"9007199254740993" rounds to 2⁵³. -/
theorem claim8_path_id_validation_witness :
    getUserFromToken st0 (some "tokB") = some ⟨2, "bob"⟩ ∧
    parsePositiveInt "abc" = none ∧
    deleteBookById st0 (some "tokB") "abc" =
      (⟨400, .errMsg "id must be a positive integer"⟩, st0) ∧
    parsePositiveInt "1e309" = none ∧
    getBookById st0 "1e309" =
      (⟨400, .errMsg "id must be a positive integer"⟩, st0) ∧
    parsePositiveInt "1.0000000000000001" = some 1 ∧
    getAuthorById st0 "1.0000000000000001" = (⟨200, .author rowling⟩, st0) ∧
    parsePositiveInt "9007199254740993" = some 9007199254740992 :=
  ⟨by decide, by decide,
   (((claim8_path_id_validation st0 (some "tokB") ⟨2, "bob"⟩ "abc"
      JsonVal.null (by decide)).2 (by decide)).2.2.2.2),
   by decide,
   (((claim8_path_id_validation st0 (some "tokB") ⟨2, "bob"⟩ "1e309"
      JsonVal.null (by decide)).2 (by decide)).2.1),
   by decide, by decide, by decide⟩

/-- C10: on the five mutating author/book endpoints an unauthenticated
request is answered 401 "Not logged in" with the store untouched, for
every path id string and every body — the later 400 validation branches
are unreachable without a session. -/
theorem claim10_auth_before_validation (st : Store) (token : Option String)
    (idStr : String) (body : JsonVal)
    (hnone : getUserFromToken st token = none) :
    postAuthors st token body = (⟨401, .errMsg "Not logged in"⟩, st) ∧
    deleteAuthorById st token idStr = (⟨401, .errMsg "Not logged in"⟩, st) ∧
    postBooks st token body = (⟨401, .errMsg "Not logged in"⟩, st) ∧
    putBookById st token idStr body = (⟨401, .errMsg "Not logged in"⟩, st) ∧
    deleteBookById st token idStr = (⟨401, .errMsg "Not logged in"⟩, st) := by
  refine ⟨?_, ?_, ?_, ?_, ?_⟩ <;>
    simp [postAuthors, deleteAuthorById, postBooks, putBookById,
      deleteBookById, hnone]

/-- C10 witness: a token with no session row, a malformed path id and an
invalid body still produce 401, not 400. -/
theorem claim10_auth_before_validation_witness :
    getUserFromToken st0 (some "stale") = none ∧
    parsePositiveInt "xyz" = none ∧
    putBookById st0 (some "stale") "xyz" JsonVal.null =
      (⟨401, .errMsg "Not logged in"⟩, st0) :=
  ⟨by decide, by decide,
   (claim10_auth_before_validation st0 (some "stale") "xyz" JsonVal.null
     (by decide)).2.2.2.1⟩

/-- C4: an authenticated book creation whose body passes schema validation
but whose `authorID` matches no author row is answered 400 "authorID does
not exist" (never 500) and the store — in particular the books table — is
returned unchanged. -/
theorem claim4_create_missing_author (st : Store) (token : Option String)
    (u : User) (body : JsonVal) (data : BookCreate)
    (hauth : getUserFromToken st token = some u)
    (hparse : bookCreateParse body = .ok data)
    (hnone : st.authors.find? (fun a => a.id == data.authorID) = none) :
    postBooks st token body = (⟨400, .errMsg "authorID does not exist"⟩, st) := by
  simp [postBooks, hauth, hparse, hnone]

/-- C4 witness: alice posts a valid body with `authorID` 999999, which no
author row carries; the response is 400 and the store is unchanged. -/
theorem claim4_create_missing_author_witness :
    getUserFromToken st0 (some "tokA") = some ⟨1, "alice"⟩ ∧
    bookCreateParse bookBodyGhostAuthor = .ok ⟨999999, "T", "1999", "G"⟩ ∧
    st0.authors.find? (fun a => a.id == 999999) = none ∧
    postBooks st0 (some "tokA") bookBodyGhostAuthor =
      (⟨400, .errMsg "authorID does not exist"⟩, st0) :=
  ⟨by decide, by decide, by decide,
   claim4_create_missing_author st0 (some "tokA") ⟨1, "alice"⟩
     bookBodyGhostAuthor ⟨999999, "T", "1999", "G"⟩
     (by decide) (by decide) (by decide)⟩

/-- C6: a well-formed login that fails because the username matches no
user row and one that fails because hash verification rejects the
password produce the same response value — status 401 with the one
generic "Invalid username or password" message — and leave their stores
unchanged, so the two causes are indistinguishable from the response. -/
theorem claim6_login_indistinguishable (st₁ st₂ : Store)
    (v₁ v₂ : String → String → Bool) (t₁ t₂ : String) (n₁ n₂ : Nat)
    (b₁ b₂ : JsonVal) (d₁ d₂ : Credentials) (row : UserRow)
    (hp₁ : credentialsParse b₁ = .ok d₁)
    (hnouser : st₁.users.find? (fun u => u.username == d₁.username) = none)
    (hp₂ : credentialsParse b₂ = .ok d₂)
    (hrow : st₂.users.find? (fun u => u.username == d₂.username) = some row)
    (hbad : v₂ row.passwordHash d₂.password = false) :
    postLogin st₁ v₁ t₁ n₁ b₁ =
      (⟨401, .errMsg "Invalid username or password"⟩, st₁) ∧
    postLogin st₂ v₂ t₂ n₂ b₂ =
      (⟨401, .errMsg "Invalid username or password"⟩, st₂) ∧
    (postLogin st₁ v₁ t₁ n₁ b₁).1 = (postLogin st₂ v₂ t₂ n₂ b₂).1 := by
  have h₁ : postLogin st₁ v₁ t₁ n₁ b₁ =
      (⟨401, .errMsg "Invalid username or password"⟩, st₁) := by
    simp [postLogin, hp₁, hnouser]
  have h₂ : postLogin st₂ v₂ t₂ n₂ b₂ =
      (⟨401, .errMsg "Invalid username or password"⟩, st₂) := by
    simp [postLogin, hp₂, hrow, hbad]
  exact ⟨h₁, h₂, by rw [h₁, h₂]⟩

/-- C6 witness: "carol" does not exist in the fixture store, while "bob"
exists but fails verification (a verifier rejecting everything); both
responses are the same 401. -/
theorem claim6_login_indistinguishable_witness :
    credentialsParse (.obj [("username", .str "carol"), ("password", .str "pw")]) =
      .ok ⟨"carol", "pw"⟩ ∧
    st0.users.find? (fun u => u.username == "carol") = none ∧
    credentialsParse (.obj [("username", .str "bob"), ("password", .str "pw")]) =
      .ok ⟨"bob", "pw"⟩ ∧
    st0.users.find? (fun u => u.username == "bob") = some bob ∧
    postLogin st0 (fun _ _ => false) "t1" 0
        (.obj [("username", .str "carol"), ("password", .str "pw")]) =
      (⟨401, .errMsg "Invalid username or password"⟩, st0) ∧
    postLogin st0 (fun _ _ => false) "t2" 0
        (.obj [("username", .str "bob"), ("password", .str "pw")]) =
      (⟨401, .errMsg "Invalid username or password"⟩, st0) :=
  ⟨by decide, by decide, by decide, by decide,
   (claim6_login_indistinguishable st0 st0 (fun _ _ => false) (fun _ _ => false)
     "t1" "t2" 0 0
     (.obj [("username", .str "carol"), ("password", .str "pw")])
     (.obj [("username", .str "bob"), ("password", .str "pw")])
     ⟨"carol", "pw"⟩ ⟨"bob", "pw"⟩ bob
     (by decide) (by decide) (by decide) (by decide) rfl).1,
   (claim6_login_indistinguishable st0 st0 (fun _ _ => false) (fun _ _ => false)
     "t1" "t2" 0 0
     (.obj [("username", .str "carol"), ("password", .str "pw")])
     (.obj [("username", .str "bob"), ("password", .str "pw")])
     ⟨"carol", "pw"⟩ ⟨"bob", "pw"⟩ bob
     (by decide) (by decide) (by decide) (by decide) rfl).2.1⟩

/-- Spec-side reading of the claim, written from the spec's words and to
be compared with the code's `fourDigits` test: membership in the regular
language `\d{4}` — exactly four characters, each an ASCII digit. -/
def specFourDigitLang (s : String) : Prop :=
  s.data.length = 4 ∧ ∀ c ∈ s.data, '0' ≤ c ∧ c ≤ '9'

/-- The code's four-digit test accepts exactly the language `\d{4}`. -/
theorem fourDigits_iff (s : String) :
    fourDigits s = true ↔ specFourDigitLang s := by
  simp [fourDigits, specFourDigitLang, List.all_eq_true, isDecDigit,
    Bool.and_eq_true, decide_eq_true_eq]

/-- C9: `publishYear` acceptance is exactly the regular language `\d{4}`,
both at the `PublishYearSchema` check and through `BookCreateSchema` on a
whole body; concretely, "1999" is accepted (201 on POST /api/books), while
"99", "19999" and "19ab" are each rejected with 400 and a `publishYear`
field error. -/
theorem claim9_publish_year_language (s : String) :
    (zodPublishYear (some (.str s)) = .ok s ↔ specFourDigitLang s) ∧
    ((∃ d, bookCreateParse (bookBody s) = .ok d) ↔ specFourDigitLang s) ∧
    postBooks st0 (some "tokA") (bookBody "1999") =
      (⟨201, .book ⟨2, 1, 1, "T", "1999", "G"⟩⟩,
       ⟨[rowling], [hpBook, ⟨2, 1, 1, "T", "1999", "G"⟩], [alice, bob],
        [⟨"tokA", 1, 0⟩, ⟨"tokB", 2, 0⟩], 2, 3, 3⟩) ∧
    postBooks st0 (some "tokA") (bookBody "99") =
      (⟨400, .errFields [("publishYear", "Invalid")]⟩, st0) ∧
    postBooks st0 (some "tokA") (bookBody "19999") =
      (⟨400, .errFields [("publishYear", "Invalid")]⟩, st0) ∧
    postBooks st0 (some "tokA") (bookBody "19ab") =
      (⟨400, .errFields [("publishYear", "Invalid")]⟩, st0) := by
  refine ⟨?_, ?_, by decide, by decide, by decide, by decide⟩
  · by_cases hf : fourDigits s
    · simp [zodPublishYear, if_pos hf, ← fourDigits_iff, hf]
    · simp [zodPublishYear, if_neg hf, ← fourDigits_iff, hf]
  · have ha : zodPosInt (some (.num 1)) = .ok 1 := by decide
    have ht : zodString 1 300 (some (.str "T")) = .ok "T" := by decide
    have hg : zodString 1 100 (some (.str "G")) = .ok "G" := by decide
    by_cases hf : fourDigits s
    · simp only [bookCreateParse, bookBody, getField, List.find?, ← fourDigits_iff]
      simp [ha, ht, hg, zodPublishYear, hf]
    · simp only [bookCreateParse, bookBody, getField, List.find?, ← fourDigits_iff]
      simp [ha, ht, hg, zodPublishYear, hf]

/-- C2: `GET /api/books` with a four-digit `minYear` returns 200 with
exactly the stored books whose `publishYear` is byte-wise (equivalently
code-point lexicographically) ≥ `minYear`, in store order and with the
store unchanged; a `minYear` failing `^\d{4}$` is answered 400 "minYear
must be 4 digits". -/
theorem claim2_min_year_filter (st : Store) (y : String) :
    (fourDigits y = true →
      getBooks st none none (some y) =
        (⟨200, .bookList (st.books.filter (fun b => strGe b.publishYear y))⟩, st) ∧
      ∀ b, b ∈ st.books.filter (fun b => strGe b.publishYear y) ↔
        b ∈ st.books ∧
          (y.data = b.publishYear.data ∨
            List.Lex (· < ·) y.data b.publishYear.data)) ∧
    (fourDigits y = false →
      getBooks st none none (some y) =
        (⟨400, .errMsg "minYear must be 4 digits"⟩, st)) := by
  constructor
  · intro hy
    constructor
    · have hfun : ∀ b ∈ st.books,
          bookMatches none none (some y) b = strGe b.publishYear y := by
        intro b _
        simp [bookMatches]
      simp [getBooks, getBooks.getBooksFiltered, hy, List.filter_congr hfun]
    · intro b
      rw [List.mem_filter, strGe, sqliteLe_iff]
  · intro hy
    simp [getBooks, getBooks.getBooksFiltered, hy]

/-- C2 witness: in a store holding books of years 1850 and 1950,
`minYear=1900` keeps exactly the 1950 book, and the malformed value
"190x" is answered 400. -/
theorem claim2_min_year_filter_witness :
    fourDigits "1900" = true ∧
    getBooks stYears none none (some "1900") =
      (⟨200, .bookList [⟨2, 1, 1, "New", "1950", "G"⟩]⟩, stYears) ∧
    fourDigits "190x" = false ∧
    getBooks stYears none none (some "190x") =
      (⟨400, .errMsg "minYear must be 4 digits"⟩, stYears) :=
  ⟨by decide,
   (((claim2_min_year_filter stYears "1900").1 (by decide)).1).trans (by decide),
   by decide,
   (claim2_min_year_filter stYears "190x").2 (by decide)⟩

/-- A failed `AuthorCreateSchema` parse always reports at least one
issue. -/
theorem authorCreateParse_error_ne_nil {body : JsonVal}
    {errs : List (String × String)}
    (h : authorCreateParse body = .error errs) : errs ≠ [] := by
  cases body with
  | obj fields =>
    unfold authorCreateParse at h
    cases hn : zodString 1 200 (getField fields "name") <;>
      cases hb : zodString 1 2000 (getField fields "bio") <;>
      simp [hn, hb, issueOf] at h <;> simp [← h]
  | null => simp [authorCreateParse] at h; simp [← h]
  | bool b => simp [authorCreateParse] at h; simp [← h]
  | num q => simp [authorCreateParse] at h; simp [← h]
  | str s => simp [authorCreateParse] at h; simp [← h]
  | arr xs => simp [authorCreateParse] at h; simp [← h]

/-- A failed `BookCreateSchema` parse always reports at least one
issue. -/
theorem bookCreateParse_error_ne_nil {body : JsonVal}
    {errs : List (String × String)}
    (h : bookCreateParse body = .error errs) : errs ≠ [] := by
  cases body with
  | obj fields =>
    unfold bookCreateParse at h
    cases ha : zodPosInt (getField fields "authorID") <;>
      cases ht : zodString 1 300 (getField fields "title") <;>
      cases hp : zodPublishYear (getField fields "publishYear") <;>
      cases hg : zodString 1 100 (getField fields "genre") <;>
      simp [ha, ht, hp, hg, issueOf] at h <;> simp [← h]
  | null => simp [bookCreateParse] at h; simp [← h]
  | bool b => simp [bookCreateParse] at h; simp [← h]
  | num q => simp [bookCreateParse] at h; simp [← h]
  | str s => simp [bookCreateParse] at h; simp [← h]
  | arr xs => simp [bookCreateParse] at h; simp [← h]

/-- A failed `RegisterSchema`/`LoginSchema` parse always reports at least
one issue. -/
theorem credentialsParse_error_ne_nil {body : JsonVal}
    {errs : List (String × String)}
    (h : credentialsParse body = .error errs) : errs ≠ [] := by
  cases body with
  | obj fields =>
    unfold credentialsParse at h
    cases hu : zodUsername (getField fields "username") <;>
      cases hp : zodString 1 200 (getField fields "password") <;>
      simp [hu, hp, issueOf] at h <;> simp [← h]
  | null => simp [credentialsParse] at h; simp [← h]
  | bool b => simp [credentialsParse] at h; simp [← h]
  | num q => simp [credentialsParse] at h; simp [← h]
  | str s => simp [credentialsParse] at h; simp [← h]
  | arr xs => simp [credentialsParse] at h; simp [← h]

/-- C7: whenever a create/update body fails schema validation —
author-create, book-create, book-update, register, login — the handler
answers 400 carrying the non-empty structured field-level error list, and
the store state is identical before and after the request (the
authenticated endpoints are taken past their auth gate by `hauth`, and
the book-update endpoint past its id check by `hid`). -/
theorem claim7_invalid_body_rejected (st : Store) (token : Option String)
    (u : User) (body : JsonVal) (errs : List (String × String))
    (idStr : String) (id : Nat) (hash : String → String)
    (verify : String → String → Bool) (tok : String) (now : Nat)
    (hauth : getUserFromToken st token = some u)
    (hid : parsePositiveInt idStr = some id) :
    (authorCreateParse body = .error errs →
      postAuthors st token body = (⟨400, .errFields errs⟩, st) ∧ errs ≠ []) ∧
    (bookCreateParse body = .error errs →
      postBooks st token body = (⟨400, .errFields errs⟩, st) ∧
      putBookById st token idStr body = (⟨400, .errFields errs⟩, st) ∧
      errs ≠ []) ∧
    (credentialsParse body = .error errs →
      postRegister st hash body = (⟨400, .errFields errs⟩, st) ∧
      postLogin st verify tok now body = (⟨400, .errFields errs⟩, st) ∧
      errs ≠ []) := by
  refine ⟨fun he => ⟨?_, authorCreateParse_error_ne_nil he⟩,
          fun he => ⟨?_, ?_, bookCreateParse_error_ne_nil he⟩,
          fun he => ⟨?_, ?_, credentialsParse_error_ne_nil he⟩⟩ <;>
    simp [postAuthors, postBooks, putBookById, postRegister, postLogin,
      hauth, hid, he]

/-- C7 witness: the empty JSON object fails `BookCreateSchema` with one
"Required" issue per field; alice's POST and PUT are both answered 400
with that list and the untouched store. -/
theorem claim7_invalid_body_rejected_witness :
    getUserFromToken st0 (some "tokA") = some ⟨1, "alice"⟩ ∧
    parsePositiveInt "1" = some 1 ∧
    bookCreateParse (.obj []) =
      .error [("authorID", "Required"), ("title", "Required"),
              ("publishYear", "Required"), ("genre", "Required")] ∧
    postBooks st0 (some "tokA") (.obj []) =
      (⟨400, .errFields [("authorID", "Required"), ("title", "Required"),
        ("publishYear", "Required"), ("genre", "Required")]⟩, st0) ∧
    putBookById st0 (some "tokA") "1" (.obj []) =
      (⟨400, .errFields [("authorID", "Required"), ("title", "Required"),
        ("publishYear", "Required"), ("genre", "Required")]⟩, st0) :=
  ⟨by decide, by decide, by decide,
   ((claim7_invalid_body_rejected st0 (some "tokA") ⟨1, "alice"⟩ (.obj [])
      [("authorID", "Required"), ("title", "Required"),
       ("publishYear", "Required"), ("genre", "Required")]
      "1" 1 (fun p => p) (fun _ _ => true) "t" 0
      (by decide) (by decide)).2.1 (by decide)).1,
   ((claim7_invalid_body_rejected st0 (some "tokA") ⟨1, "alice"⟩ (.obj [])
      [("authorID", "Required"), ("title", "Required"),
       ("publishYear", "Required"), ("genre", "Required")]
      "1" 1 (fun p => p) (fun _ _ => true) "t" 0
      (by decide) (by decide)).2.1 (by decide)).2.1⟩

/-- Fixture store like `st0` but with no book rows, so author 1 is
deletable. -/
def stNoBooks : Store :=
  ⟨[rowling], [], [alice, bob], [⟨"tokA", 1, 0⟩, ⟨"tokB", 2, 0⟩], 2, 2, 3⟩

/-- C3: authenticated `DELETE /api/authors/:id` answers 404 when no author
row has the id; it answers 409 "Cannot delete author because they still
have books" exactly when the row exists and some book still references it,
leaving both the author and the books intact; otherwise it deletes the row,
answers 204, and a subsequent GET of that id answers 404. -/
theorem claim3_author_delete (st : Store) (token : Option String) (u : User)
    (idStr : String) (aid : Nat)
    (hauth : getUserFromToken st token = some u)
    (hid : parsePositiveInt idStr = some aid) :
    (st.authors.find? (fun a => a.id == aid) = none →
      deleteAuthorById st token idStr = (⟨404, .errMsg "Author not found"⟩, st)) ∧
    (st.authors.any (fun a => a.id == aid) = true →
      st.books.any (fun b => b.authorID == aid) = true →
      deleteAuthorById st token idStr =
        (⟨409, .errMsg "Cannot delete author because they still have books"⟩, st)) ∧
    (st.authors.any (fun a => a.id == aid) = true →
      st.books.any (fun b => b.authorID == aid) = false →
      deleteAuthorById st token idStr =
        (⟨204, .empty⟩,
         { st with authors := st.authors.filter (fun a => !(a.id == aid)) }) ∧
      ∀ s2, parsePositiveInt s2 = some aid →
        getAuthorById
            { st with authors := st.authors.filter (fun a => !(a.id == aid)) } s2 =
          (⟨404, .errMsg "Author not found"⟩,
           { st with authors := st.authors.filter (fun a => !(a.id == aid)) })) := by
  refine ⟨?_, ?_, ?_⟩
  · intro hnofind
    have hall : ∀ a ∈ st.authors, ¬(a.id == aid) = true :=
      List.find?_eq_none.mp hnofind
    have hany : st.authors.any (fun a => a.id == aid) = false := by
      rw [← Bool.not_eq_true, List.any_eq_true]
      rintro ⟨a, ha, haid⟩
      exact hall a ha haid
    have hfilter : st.authors.filter (fun a => !(a.id == aid)) = st.authors :=
      List.filter_eq_self.mpr (fun a ha => by simp [hall a ha])
    simp [deleteAuthorById, hauth, hid, hany, hfilter]
  · intro hA hB
    simp [deleteAuthorById, hauth, hid, hA, hB]
  · intro hA hB
    have hlt : (st.authors.filter (fun a => !(a.id == aid))).length <
        st.authors.length := by
      rw [List.length_filter_lt_length_iff_exists]
      obtain ⟨a, ha, haid⟩ := List.any_eq_true.mp hA
      exact ⟨a, ha, by simp [haid]⟩
    have hne : ((st.authors.filter (fun a => !(a.id == aid))).length ==
        st.authors.length) = false := by
      simp [Nat.ne_of_lt hlt]
    refine ⟨by simp [deleteAuthorById, hauth, hid, hA, hB, hne], ?_⟩
    intro s2 hs2
    have hfindnone : (st.authors.filter (fun a => !(a.id == aid))).find?
        (fun a => a.id == aid) = none := by
      rw [List.find?_eq_none]
      intro a ha
      have h2 := (List.mem_filter.mp ha).2
      simpa using h2
    simp [getAuthorById, hs2, hfindnone]

/-- C3 witness: in `st0` author 1 still has a book, so DELETE answers 409
and leaves the store alone; in `stNoBooks` the same DELETE answers 204,
removing the row, and GET then answers 404. -/
theorem claim3_author_delete_witness :
    getUserFromToken st0 (some "tokA") = some ⟨1, "alice"⟩ ∧
    parsePositiveInt "1" = some 1 ∧
    deleteAuthorById st0 (some "tokA") "1" =
      (⟨409, .errMsg "Cannot delete author because they still have books"⟩, st0) ∧
    deleteAuthorById stNoBooks (some "tokA") "1" =
      (⟨204, .empty⟩,
       ⟨[], [], [alice, bob], [⟨"tokA", 1, 0⟩, ⟨"tokB", 2, 0⟩], 2, 2, 3⟩) ∧
    getAuthorById
        ⟨[], [], [alice, bob], [⟨"tokA", 1, 0⟩, ⟨"tokB", 2, 0⟩], 2, 2, 3⟩ "1" =
      (⟨404, .errMsg "Author not found"⟩,
       ⟨[], [], [alice, bob], [⟨"tokA", 1, 0⟩, ⟨"tokB", 2, 0⟩], 2, 2, 3⟩) :=
  ⟨by decide, by decide,
   (claim3_author_delete st0 (some "tokA") ⟨1, "alice"⟩ "1" 1
     (by decide) (by decide)).2.1 (by decide) (by decide),
   (((claim3_author_delete stNoBooks (some "tokA") ⟨1, "alice"⟩ "1" 1
     (by decide) (by decide)).2.2 (by decide) (by decide)).1).trans (by decide),
   ((((claim3_author_delete stNoBooks (some "tokA") ⟨1, "alice"⟩ "1" 1
     (by decide) (by decide)).2.2 (by decide) (by decide)).2 "1"
       (by decide)).trans (by decide))⟩

/-- C1: when an authenticated caller is not the creator of the targeted
book, DELETE answers 403 "You can only delete books you created" and PUT
(once its body is valid and the body's author exists) answers 403 "You
can only edit books you created", in both cases returning the store — so
every book row — unchanged; moreover, over all requests to the two
endpoints, any book row that is removed or rewritten belonged to the
authenticated caller (`hnodup` is the books PRIMARY KEY invariant). -/
theorem claim1_owner_only (st : Store) (token : Option String) (u : User)
    (idStr : String) (bid : Nat) (b : Book) (body : JsonVal)
    (hnodup : (st.books.map Book.id).Nodup)
    (hauth : getUserFromToken st token = some u)
    (hid : parsePositiveInt idStr = some bid)
    (hfind : st.books.find? (fun x => x.id == bid) = some b)
    (hother : b.createdByUserID ≠ u.id) :
    deleteBookById st token idStr =
      (⟨403, .errMsg "You can only delete books you created"⟩, st) ∧
    (∀ data a, bookCreateParse body = .ok data →
      st.authors.find? (fun x => x.id == data.authorID) = some a →
      putBookById st token idStr body =
        (⟨403, .errMsg "You can only edit books you created"⟩, st)) ∧
    (∀ tk is bd x, x ∈ st.books → x ∉ (putBookById st tk is bd).2.books →
      ∃ v, getUserFromToken st tk = some v ∧ x.createdByUserID = v.id) ∧
    (∀ tk is x, x ∈ st.books → x ∉ (deleteBookById st tk is).2.books →
      ∃ v, getUserFromToken st tk = some v ∧ x.createdByUserID = v.id) := by
  refine ⟨?_, ?_, ?_, ?_⟩
  · simp [deleteBookById, hauth, hid, hfind, hother]
  · intro data a hparse haf
    simp [putBookById, hauth, hid, hparse, haf, hfind, hother]
  · intro tk is bd x hx hnot
    cases hu : getUserFromToken st tk with
    | none =>
      simp only [putBookById, hu] at hnot
      exact absurd hx hnot
    | some v =>
      refine ⟨v, rfl, ?_⟩
      cases hpi : parsePositiveInt is with
      | none =>
        simp only [putBookById, hu, hpi] at hnot
        exact absurd hx hnot
      | some i =>
      cases hbp : bookCreateParse bd with
      | error e =>
        simp only [putBookById, hu, hpi, hbp] at hnot
        exact absurd hx hnot
      | ok d =>
      cases haf : st.authors.find? (fun a => a.id == d.authorID) with
      | none =>
        simp only [putBookById, hu, hpi, hbp, haf] at hnot
        exact absurd hx hnot
      | some a0 =>
      cases hbf : st.books.find? (fun y => y.id == i) with
      | none =>
        simp only [putBookById, hu, hpi, hbp, haf, hbf] at hnot
        exact absurd hx hnot
      | some saved =>
      by_cases hown : saved.createdByUserID = v.id
      · have hbne : (saved.createdByUserID != v.id) = false := by simp [hown]
        simp only [putBookById, hu, hpi, hbp, haf, hbf, hbne,
          Bool.false_eq_true, if_false] at hnot
        have hne : updateBookRow i d x ≠ x := by
          intro he
          exact hnot (he ▸ List.mem_map_of_mem (updateBookRow i d) hx)
        have hxid : (x.id == i) = true := by
          by_contra hxi
          exact hne (by simp [updateBookRow, hxi])
        have hsid : (saved.id == i) = true := by
          simpa using List.find?_some hbf
        have hxs : x = saved :=
          List.inj_on_of_nodup_map hnodup hx (List.mem_of_find?_eq_some hbf)
            (by rw [beq_iff_eq.mp hxid, beq_iff_eq.mp hsid])
        rw [hxs, hown]
      · have hbne : (saved.createdByUserID != v.id) = true := by simp [hown]
        simp only [putBookById, hu, hpi, hbp, haf, hbf, hbne, if_true] at hnot
        exact absurd hx hnot
  · intro tk is x hx hnot
    cases hu : getUserFromToken st tk with
    | none =>
      simp only [deleteBookById, hu] at hnot
      exact absurd hx hnot
    | some v =>
      refine ⟨v, rfl, ?_⟩
      cases hpi : parsePositiveInt is with
      | none =>
        simp only [deleteBookById, hu, hpi] at hnot
        exact absurd hx hnot
      | some i =>
      cases hbf : st.books.find? (fun y => y.id == i) with
      | none =>
        simp only [deleteBookById, hu, hpi, hbf] at hnot
        exact absurd hx hnot
      | some saved =>
      by_cases hown : saved.createdByUserID = v.id
      · have hbne : (saved.createdByUserID != v.id) = false := by simp [hown]
        simp only [deleteBookById, hu, hpi, hbf, hbne,
          Bool.false_eq_true, if_false] at hnot
        have hxid : (x.id == i) = true := by
          by_contra hxi
          exact hnot (List.mem_filter.mpr ⟨hx, by simp [hxi]⟩)
        have hsid : (saved.id == i) = true := by
          simpa using List.find?_some hbf
        have hxs : x = saved :=
          List.inj_on_of_nodup_map hnodup hx (List.mem_of_find?_eq_some hbf)
            (by rw [beq_iff_eq.mp hxid, beq_iff_eq.mp hsid])
        rw [hxs, hown]
      · have hbne : (saved.createdByUserID != v.id) = true := by simp [hown]
        simp only [deleteBookById, hu, hpi, hbf, hbne, if_true] at hnot
        exact absurd hx hnot

/-- C1 witness: bob (not the creator) is refused with 403 on both DELETE
and PUT of alice's book, with the store returned unchanged. -/
theorem claim1_owner_only_witness :
    getUserFromToken st0 (some "tokB") = some ⟨2, "bob"⟩ ∧
    st0.books.find? (fun x => x.id == 1) = some hpBook ∧
    hpBook.createdByUserID ≠ 2 ∧
    deleteBookById st0 (some "tokB") "1" =
      (⟨403, .errMsg "You can only delete books you created"⟩, st0) ∧
    putBookById st0 (some "tokB") "1" (bookBody "2000") =
      (⟨403, .errMsg "You can only edit books you created"⟩, st0) :=
  ⟨by decide, by decide, by decide,
   (claim1_owner_only st0 (some "tokB") ⟨2, "bob"⟩ "1" 1 hpBook
     (bookBody "2000") (by decide) (by decide) (by decide) (by decide)
     (by decide)).1,
   (claim1_owner_only st0 (some "tokB") ⟨2, "bob"⟩ "1" 1 hpBook
     (bookBody "2000") (by decide) (by decide) (by decide) (by decide)
     (by decide)).2.1 ⟨1, "T", "2000", "G"⟩ rowling (by decide) (by decide)⟩

/-- C5: a successful book update (authenticated creator, parsed body,
existing target author, existing book) replaces exactly the four mutable
fields of the stored row, keeps its id and original `createdByUserID`,
echoes that resulting record in the response, and leaves the authors,
users and sessions tables and the id counters untouched. -/
theorem claim5_put_success (st : Store) (token : Option String) (u : User)
    (idStr : String) (bid : Nat) (body : JsonVal) (data : BookCreate)
    (b : Book) (a : Author)
    (hauth : getUserFromToken st token = some u)
    (hid : parsePositiveInt idStr = some bid)
    (hparse : bookCreateParse body = .ok data)
    (hafind : st.authors.find? (fun x => x.id == data.authorID) = some a)
    (hfind : st.books.find? (fun x => x.id == bid) = some b)
    (hmine : b.createdByUserID = u.id) :
    putBookById st token idStr body =
      (⟨200, .book ⟨bid, data.authorID, b.createdByUserID, data.title,
                    data.publishYear, data.genre⟩⟩,
       { st with books := st.books.map (updateBookRow bid data) }) ∧
    (st.books.map (updateBookRow bid data)).find? (fun x => x.id == bid) =
      some ⟨bid, data.authorID, b.createdByUserID, data.title,
            data.publishYear, data.genre⟩ ∧
    (putBookById st token idStr body).2.authors = st.authors ∧
    (putBookById st token idStr body).2.users = st.users ∧
    (putBookById st token idStr body).2.sessions = st.sessions ∧
    (putBookById st token idStr body).2.nextBookId = st.nextBookId := by
  have hbne : (b.createdByUserID != u.id) = false := by simp [hmine]
  have hput : putBookById st token idStr body =
      (⟨200, .book ⟨bid, data.authorID, b.createdByUserID, data.title,
                    data.publishYear, data.genre⟩⟩,
       { st with books := st.books.map (updateBookRow bid data) }) := by
    simp [putBookById, hauth, hid, hparse, hafind, hfind, hbne, hmine]
  have hbid : b.id = bid := by simpa using List.find?_some hfind
  refine ⟨hput, ?_, by rw [hput], by rw [hput], by rw [hput], by rw [hput]⟩
  rw [find?_map_update, hfind]
  simp [replBook, hbid]

/-- C5 witness: alice updates her own book; the row's title/year change,
its id and creator stay, and the response echoes the stored record. -/
theorem claim5_put_success_witness :
    getUserFromToken st0 (some "tokA") = some ⟨1, "alice"⟩ ∧
    bookCreateParse (bookBody "2000") = .ok ⟨1, "T", "2000", "G"⟩ ∧
    st0.books.find? (fun x => x.id == 1) = some hpBook ∧
    putBookById st0 (some "tokA") "1" (bookBody "2000") =
      (⟨200, .book ⟨1, 1, 1, "T", "2000", "G"⟩⟩,
       ⟨[rowling], [⟨1, 1, 1, "T", "2000", "G"⟩], [alice, bob],
        [⟨"tokA", 1, 0⟩, ⟨"tokB", 2, 0⟩], 2, 2, 3⟩) :=
  ⟨by decide, by decide, by decide,
   ((claim5_put_success st0 (some "tokA") ⟨1, "alice"⟩ "1" 1 (bookBody "2000")
     ⟨1, "T", "2000", "G"⟩ hpBook rowling (by decide) (by decide) (by decide)
     (by decide) (by decide) (by decide)).1).trans (by decide)⟩

end Catalog
